import Mathlib

/-!
Shallow embedding of the client-side synchronization core of
`src/app/page.tsx` (TaskManagerPage): the notification reconciler, the
task snapshot fetcher, the toast queue, the log cache and the auth /
logout handlers.  Machine-visible state updates are transcribed as pure
functions on an explicit application state; asynchronous network calls
are modelled by passing the eventual outcome of the call as an explicit
argument, applied at the moment the response arrives.  `Date.now()` is
modelled as an explicit `now : Nat` argument.
-/

set_option linter.unusedVariables false

-- ---------------- Types (src/app/page.tsx lines 16-61) ----------------

/-- `type Priority = "Low" | "Medium" | "High"` -/
inductive Priority where
  | Low | Medium | High
deriving DecidableEq

/-- `type Status = "Pending" | "In Progress" | "Completed"` -/
inductive Status where
  | Pending | InProgress | Completed
deriving DecidableEq

/-- `interface IUser` — optional fields become `Option`. -/
structure IUser where
  _id : String
  id : Option String
  username : String
  email : String
deriving DecidableEq

/-- `interface ITask` -/
structure ITask where
  _id : String
  id : Option String
  title : String
  description : String
  priority : Priority
  status : Status
  dueDate : Option String
  assignedTo : Option IUser
  createdBy : IUser
  createdAt : String
  updatedAt : String
deriving DecidableEq

/-- `performedBy` / `user` sub-object of `ILog`. -/
structure LogUser where
  username : String
  email : String
deriving DecidableEq

/-- `interface ILog` -/
structure ILog where
  _id : String
  id : Option String
  action : String
  details : Option String
  performedBy : Option LogUser
  user : Option LogUser
  createdAt : String
  taskId : Option String
  task : Option String
deriving DecidableEq

/-- `interface INotification` -/
structure INotification where
  _id : String
  id : Option String
  user : String
  message : String
  isRead : Bool
  task : Option String
  createdAt : String
  updatedAt : String
deriving DecidableEq

/-- Toast queue entries: `{ id: string; message: string }` (line 117). -/
structure ToastItem where
  id : String
  message : String
deriving DecidableEq

-- ---------------- JS helper expressions ----------------

/-- `getTaskId(task) = task._id || task.id || ""` (line 151): the first
truthy (non-empty, defined) value, else the empty string. -/
def getTaskId (t : ITask) : String :=
  if t._id ≠ "" then t._id else t.id.getD ""

/-- `getUserId(user) = user._id || user.id || ""` (line 152). -/
def getUserId (u : IUser) : String :=
  if u._id ≠ "" then u._id else u.id.getD ""

/-- The JS expression `n._id || n.id` used to key notifications
(lines 472, 644): `none` models the JS value `undefined`. -/
def notifKey (n : INotification) : Option String :=
  if n._id ≠ "" then some n._id else n.id

/-- Shape of an axios `res.data` for a list resource:
`Array.isArray(res.data) ? res.data : res.data?.X || []` where `X` is the
resource-named field (`tasks`, `notifications`, `users`, `logs`). -/
inductive ApiData (α : Type) where
  | list (items : List α)
  | obj (field : Option (List α))
deriving DecidableEq

/-- Evaluation of that JS expression: a raw array is used as is; an object
yields its resource field, or `[]` when the field is absent. -/
def extractList {α : Type} : ApiData α → List α
  | .list items => items
  | .obj (some items) => items
  | .obj none => []

-- ---------------- Toast queue (lines 142-149) ----------------

/-- `showToast(message)`: `id = Date.now().toString()`;
`setToasts(prev => [...prev, { id, message }])`. -/
def showToast (now : Nat) (message : String) (prev : List ToastItem) : List ToastItem :=
  prev ++ [{ id := toString now, message := message }]

/-- `removeToast(id)`: `setToasts(prev => prev.filter(toast => toast.id !== id))`. -/
def removeToast (id : String) (prev : List ToastItem) : List ToastItem :=
  prev.filter (fun t => t.id ≠ id)

-- ---------------- Notification collection updates ----------------

/-- The `setNotifications` updater of the push handler `onNotification`
(line 195): `prev => [notif, ...prev]` — unconditional prepend. -/
def onNotificationUpdate (notif : INotification) (prev : List INotification) :
    List INotification :=
  notif :: prev

/-- One element of the `markNotificationRead` updater (lines 470-474):
`(n._id || n.id) === notificationId ? { ...n, isRead: true } : n`. -/
def markReadOne (notificationId : String) (n : INotification) : INotification :=
  if notifKey n = some notificationId then { n with isRead := true } else n

/-- The `setNotifications` updater of `markNotificationRead`. -/
def markReadUpdate (notificationId : String) (prev : List INotification) :
    List INotification :=
  prev.map (markReadOne notificationId)

/-- The `setNotifications` updater of `markAllReadLocal` (line 498):
`prev.map(n => n.isRead ? n : { ...n, isRead: true })`. -/
def markAllReadUpdate (prev : List INotification) : List INotification :=
  prev.map (fun n => if n.isRead then n else { n with isRead := true })

/-- `unreadCount` (lines 457-460):
`notifications.filter(n => !n.isRead).length`. -/
def unreadCount (notifications : List INotification) : Nat :=
  (notifications.filter (fun n => !n.isRead)).length

/-- Body of the `markAllReadLocal` PATCH response:
`{ success, modifiedCount }`. -/
structure MarkAllResp where
  success : Bool
  modifiedCount : Nat
deriving DecidableEq

-- ---------------- Reconciler operations as events ----------------

/-- One reconciler operation on the notification collection, together
with the outcome of any network call it performs.  `Option` outcomes:
`none` models a thrown / rejected request, `some` a resolved response. -/
inductive NotifOp where
  | push (n : INotification)
  | snapshot (d : ApiData INotification)
  | snapshotFail
  | markRead (notificationId : String) (outcome : Option Bool)
  | markAllRead (outcome : Option MarkAllResp)
deriving DecidableEq

/-- Effect of one reconciler operation on the notification collection,
transcribed from `onNotification` (193-213), `fetchNotifications`
(269-278), `markNotificationRead` (463-479) and `markAllReadLocal`
(481-506): the push handler prepends unconditionally; a successful
snapshot replaces the collection; a failed snapshot leaves it unchanged;
`markRead` flips only when the response reports `success`;
`markAllRead` returns early when there are no unread entries and
otherwise flips all unread entries only when the response reports
`success`. -/
def applyNotifOp (op : NotifOp) (prev : List INotification) : List INotification :=
  match op with
  | .push n => onNotificationUpdate n prev
  | .snapshot d => extractList d
  | .snapshotFail => prev
  | .markRead notificationId outcome =>
      match outcome with
      | some true => markReadUpdate notificationId prev
      | _ => prev
  | .markAllRead outcome =>
      if (prev.filter (fun n => !n.isRead)).length = 0 then prev
      else
        match outcome with
        | some r => if r.success then markAllReadUpdate prev else prev
        | none => prev

/-- A sequence of reconciler operations applied in order. -/
def applyNotifOps : List NotifOp → List INotification → List INotification
  | [], cur => cur
  | op :: rest, cur => applyNotifOps rest (applyNotifOp op cur)

-- ---------------- Key uniqueness machinery ----------------

/-- Boolean membership in a list of keys. -/
def keyMem {α : Type} [DecidableEq α] (k : α) : List α → Bool
  | [] => false
  | x :: rest => if x = k then true else keyMem k rest

/-- Boolean duplicate-freedom of a list of keys. -/
def dupFreeKeys {α : Type} [DecidableEq α] : List α → Bool
  | [] => true
  | k :: rest => !keyMem k rest && dupFreeKeys rest

/-- The ids of a notification collection, in order. -/
def idsOf (l : List INotification) : List (Option String) :=
  l.map notifKey

/-- A well-behaved environment trace: every snapshot body is
duplicate-free and every pushed notification carries an id not already
present at the time the push is delivered. -/
def safeOps : List NotifOp → List INotification → Bool
  | [], _ => true
  | op :: rest, cur =>
    (match op with
     | .push n => !keyMem (notifKey n) (idsOf cur)
     | .snapshot d => dupFreeKeys (idsOf (extractList d))
     | _ => true) && safeOps rest (applyNotifOp op cur)

-- ---------------- Application state ----------------

/-- The mutable state of `TaskManagerPage` that the claims touch:
the React state hooks (lines 102-139), the socket ref (line 118) and the
two `localStorage` keys (`token`, `currentUser`).  View-only state
(panel visibility, form contents) is omitted. -/
structure AppState where
  currentUser : Option IUser
  users : List IUser
  tasks : List ITask
  logsByTask : List (String × List ILog)
  notifications : List INotification
  toasts : List ToastItem
  socketConnected : Bool
  storedToken : Option String
  storedUser : Option String
  loading : Bool
deriving DecidableEq

/-- Lookup in the `Record<string, ILog[]>` log cache (JS property read). -/
def recordLookup (r : List (String × List ILog)) (k : String) : Option (List ILog) :=
  (r.find? (fun p => p.1 = k)).map (fun p => p.2)

/-- `delete copy[taskId]` on the log cache (lines 432-436). -/
def recordDelete (r : List (String × List ILog)) (k : String) :
    List (String × List ILog) :=
  r.filter (fun p => p.1 ≠ k)

-- ---------------- Handlers on the application state ----------------

/-- `handleLogout` (lines 345-359): clears both `localStorage` keys,
nulls the user, empties tasks, notifications and the log cache,
disconnects and drops the socket, and shows a toast. -/
def handleLogout (now : Nat) (s : AppState) : AppState :=
  { s with storedToken := none
           storedUser := none
           currentUser := none
           tasks := []
           notifications := []
           logsByTask := []
           socketConnected := false
           toasts := showToast now "Logged out successfully" s.toasts }

/-- The scope filter (line 124): `"all" | "created" | "assigned"`. -/
inductive Scope where
  | all | created | assigned
deriving DecidableEq

/-- The filter state driving `fetchTasks` (lines 121-124). -/
structure FilterState where
  scope : Scope
  filterStatus : String
  filterPriority : String
  searchTerm : String
deriving DecidableEq

/-- Query parameters built by `fetchTasks` (lines 248-256), in `set`
order: `filter`, `status`, `priority`, `q`. -/
def buildTaskParams (f : FilterState) : List (String × String) :=
  (match f.scope with
   | .created => [("filter", "created")]
   | .assigned => [("filter", "assigned")]
   | .all => [])
  ++ (if f.filterStatus ≠ "all" then [("status", f.filterStatus)] else [])
  ++ (if f.filterPriority ≠ "all" then [("priority", f.filterPriority)] else [])
  ++ (if f.searchTerm ≠ "" then [("q", f.searchTerm)] else [])

/-- Completion of one `fetchTasks` call (lines 244-267), applied when its
response arrives: no user means the fetch was never issued; a successful
response replaces the task collection by the extracted list; a rejected
request only shows a failure toast.  `setLoading(false)` runs in the
`finally` block.  The handler attaches no request sequence number: each
arriving response is applied as is, in arrival order. -/
def fetchTasksComplete (now : Nat) (resp : Option (ApiData ITask)) (s : AppState) :
    AppState :=
  if s.currentUser.isNone then s
  else
    match resp with
    | some d => { s with tasks := extractList d, loading := false }
    | none =>
        { s with toasts := showToast now "Failed to fetch tasks" s.toasts
                 loading := false }

/-- Completion of one `fetchNotifications` call (lines 269-278): a
successful response replaces the notification collection; a rejected
request changes nothing (the catch block only logs). -/
def fetchNotificationsComplete (resp : Option (ApiData INotification)) (s : AppState) :
    AppState :=
  if s.currentUser.isNone then s
  else
    match resp with
    | some d => { s with notifications := extractList d }
    | none => s

/-- The push handler `onNotification` (lines 193-213) on the application
state: prepend the notification, show a toast with its message.  It also
calls `fetchTasks()`, whose completion is a later `fetchTasksComplete`
event, and fires a best-effort browser notification (no state). -/
def onNotificationEvent (now : Nat) (notif : INotification) (s : AppState) : AppState :=
  { s with notifications := onNotificationUpdate notif s.notifications
           toasts := showToast now notif.message s.toasts }

/-- `markNotificationRead` (lines 463-479): the PATCH confirm call is
awaited first; only a response with `success` truthy flips the matching
entry.  `outcome`: `none` = the request threw (catch only logs),
`some b` = resolved with `success = b`. -/
def markNotificationRead (notificationId : String) (outcome : Option Bool)
    (s : AppState) : AppState :=
  if s.currentUser.isNone then s
  else
    match outcome with
    | some true => { s with notifications := markReadUpdate notificationId s.notifications }
    | _ => s

/-- `markAllReadLocal` (lines 481-506).  Returns the number of PATCH
mark-read calls issued together with the new state: with no unread
entries it returns early after a toast, issuing no call; otherwise it
issues exactly one call and flips all unread entries only when the
response reports `success`. -/
def markAllReadLocal (now : Nat) (outcome : Option MarkAllResp) (s : AppState) :
    Nat × AppState :=
  if s.currentUser.isNone then (0, s)
  else
    let unreadNotifs := s.notifications.filter (fun n => !n.isRead)
    if unreadNotifs.length = 0 then
      (0, { s with toasts := showToast now "No unread notifications to mark" s.toasts })
    else
      match outcome with
      | some r =>
          if r.success then
            (1, { s with
                  notifications := markAllReadUpdate s.notifications
                  toasts := showToast now
                    (toString r.modifiedCount ++ " notifications marked as read") s.toasts })
          else (1, s)
      | none =>
          (1, { s with toasts := showToast now "Failed to mark notifications as read" s.toasts })

/-- `deleteTask` (lines 424-444): without user confirmation nothing
happens; on a successful DELETE the task and its cached logs are removed
and a toast is shown; on failure only a toast is shown.
`setLoading(false)` runs in the `finally` block. -/
def deleteTask (now : Nat) (task : ITask) (confirmed : Bool) (apiOk : Bool)
    (s : AppState) : AppState :=
  if !confirmed then s
  else if apiOk then
    { s with tasks := s.tasks.filter (fun x => getTaskId x ≠ getTaskId task)
             logsByTask := recordDelete s.logsByTask (getTaskId task)
             toasts := showToast now "Task deleted successfully!" s.toasts
             loading := false }
  else
    { s with toasts := showToast now "Failed to delete task" s.toasts
             loading := false }

-- ---------------- Concrete sample data ----------------

/-- A sample user. -/
def u1 : IUser :=
  { _id := "u1", id := none, username := "alice", email := "alice@example.com" }

/-- A sample unread notification with id `n1`. -/
def n1 : INotification :=
  { _id := "n1", id := none, user := "u1", message := "task assigned",
    isRead := false, task := some "t1", createdAt := "2024-01-01",
    updatedAt := "2024-01-01" }

/-- A second sample notification with id `n2`. -/
def n2 : INotification :=
  { _id := "n2", id := none, user := "u1", message := "task updated",
    isRead := false, task := some "t1", createdAt := "2024-01-02",
    updatedAt := "2024-01-02" }

/-- A sample task with id `t1`. -/
def tA : ITask :=
  { _id := "t1", id := none, title := "write report", description := "",
    priority := .Medium, status := .Pending, dueDate := none,
    assignedTo := none, createdBy := u1, createdAt := "2024-01-01",
    updatedAt := "2024-01-01" }

/-- A sample task with id `t2`. -/
def tB : ITask :=
  { _id := "t2", id := none, title := "review report", description := "",
    priority := .High, status := .Pending, dueDate := none,
    assignedTo := none, createdBy := u1, createdAt := "2024-01-02",
    updatedAt := "2024-01-02" }

/-- A sample task with id `t3`. -/
def tOther : ITask :=
  { _id := "t3", id := none, title := "archive report", description := "",
    priority := .Low, status := .Completed, dueDate := none,
    assignedTo := none, createdBy := u1, createdAt := "2024-01-03",
    updatedAt := "2024-01-03" }

/-- A sample activity log entry for task `t1`. -/
def logA : ILog :=
  { _id := "l1", id := none, action := "created", details := none,
    performedBy := some { username := "alice", email := "alice@example.com" },
    user := none, createdAt := "2024-01-01", taskId := some "t1", task := none }

/-- A sample activity log entry for task `t3`. -/
def logB : ILog :=
  { _id := "l2", id := none, action := "completed", details := none,
    performedBy := some { username := "alice", email := "alice@example.com" },
    user := none, createdAt := "2024-01-03", taskId := some "t3", task := none }

/-- The pristine application state before login. -/
def emptyState : AppState :=
  { currentUser := none, users := [], tasks := [], logsByTask := [],
    notifications := [], toasts := [], socketConnected := false,
    storedToken := none, storedUser := none, loading := false }

/-- A logged-in state with empty collections. -/
def loggedInState : AppState :=
  { emptyState with
    currentUser := some u1
    storedToken := some "tok"
    storedUser := some "alice"
    socketConnected := true }

/-- A logged-in state holding one unread notification. -/
def notifState : AppState :=
  { loggedInState with notifications := [n1] }

/-- A logged-in state holding two tasks and a cached log list for each. -/
def delState : AppState :=
  { loggedInState with
    tasks := [tA, tOther]
    logsByTask := [("t1", [logA]), ("t3", [logB])] }

-- ---------------- Helper lemmas ----------------

/-- Flipping `isRead` on one entry never changes its key. -/
theorem notifKey_markReadOne (notificationId : String) (n : INotification) :
    notifKey (markReadOne notificationId n) = notifKey n := by
  unfold markReadOne
  split <;> rfl

/-- The per-element function of `markAllReadUpdate` never changes the key. -/
theorem notifKey_markAllOne (n : INotification) :
    notifKey (if n.isRead then n else { n with isRead := true }) = notifKey n := by
  split <;> rfl

/-- `markReadUpdate` preserves the id sequence of the collection. -/
theorem idsOf_markReadUpdate (notificationId : String) (l : List INotification) :
    idsOf (markReadUpdate notificationId l) = idsOf l := by
  induction l with
  | nil => rfl
  | cons a rest ih =>
    simp only [markReadUpdate, List.map_cons, idsOf] at ih ⊢
    rw [notifKey_markReadOne, ih]

/-- `markAllReadUpdate` preserves the id sequence of the collection. -/
theorem idsOf_markAllReadUpdate (l : List INotification) :
    idsOf (markAllReadUpdate l) = idsOf l := by
  induction l with
  | nil => rfl
  | cons a rest ih =>
    simp only [markAllReadUpdate, List.map_cons, idsOf] at ih ⊢
    rw [notifKey_markAllOne, ih]

-- ---------------- C1 ----------------

/-- C1 counterexample: delivering the notification `n1` twice to the push
handler yields a collection different from delivering it once — the
second delivery is not ignored as a duplicate. -/
theorem push_duplicate_delivery_not_ignored :
    applyNotifOps [.push n1, .push n1] [] ≠ applyNotifOps [.push n1] [] := by
  decide

/-- C1 (amended): the push handler prepends unconditionally, so
delivering the same push notification twice prepends it twice: the
collection gains one extra entry relative to delivering it once instead
of remaining identical. -/
theorem push_duplicate_prepends_again (n : INotification) (prev : List INotification) :
    applyNotifOps [.push n, .push n] prev = n :: applyNotifOps [.push n] prev ∧
    (applyNotifOps [.push n, .push n] prev).length
      = (applyNotifOps [.push n] prev).length + 1 := by
  constructor
  · rfl
  · simp [applyNotifOps, applyNotifOp, onNotificationUpdate]

-- ---------------- C2 ----------------

/-- C2 counterexample: the sequence push `n1`, push `n1` produces a
collection with two entries bearing the same id. -/
theorem reconciled_ids_can_duplicate :
    dupFreeKeys (idsOf (applyNotifOps [.push n1, .push n1] [])) = false := by
  decide

/-- C2 (amended): the reconciled collection holds at most one entry per
id after any sequence of reconciler operations in which every snapshot
body is duplicate-free and every pushed id is absent when the push is
delivered; an unrestricted push of an already-present id breaks the
invariant. -/
theorem reconciled_ids_dupfree_of_safe (ops : List NotifOp) (init : List INotification)
    (h0 : dupFreeKeys (idsOf init) = true) (hs : safeOps ops init = true) :
    dupFreeKeys (idsOf (applyNotifOps ops init)) = true := by
  induction ops generalizing init with
  | nil => exact h0
  | cons op rest ih =>
    cases op with
    | push n =>
      simp only [safeOps, Bool.and_eq_true] at hs
      obtain ⟨hop, hrest⟩ := hs
      refine ih (applyNotifOp (.push n) init) ?_ hrest
      show dupFreeKeys (idsOf (onNotificationUpdate n init)) = true
      show (!keyMem (notifKey n) (idsOf init) && dupFreeKeys (idsOf init)) = true
      rw [Bool.and_eq_true]
      exact ⟨hop, h0⟩
    | snapshot d =>
      simp only [safeOps, Bool.and_eq_true] at hs
      obtain ⟨hop, hrest⟩ := hs
      exact ih (applyNotifOp (.snapshot d) init) hop hrest
    | snapshotFail =>
      simp only [safeOps, Bool.true_and] at hs
      exact ih (applyNotifOp .snapshotFail init) h0 hs
    | markRead notificationId outcome =>
      simp only [safeOps, Bool.true_and] at hs
      refine ih (applyNotifOp (.markRead notificationId outcome) init) ?_ hs
      cases outcome with
      | none => exact h0
      | some b =>
        cases b with
        | false => exact h0
        | true =>
          show dupFreeKeys (idsOf (markReadUpdate notificationId init)) = true
          rw [idsOf_markReadUpdate]
          exact h0
    | markAllRead outcome =>
      simp only [safeOps, Bool.true_and] at hs
      refine ih (applyNotifOp (.markAllRead outcome) init) ?_ hs
      simp only [applyNotifOp]
      split
      · exact h0
      · cases outcome with
        | none => exact h0
        | some r =>
          show dupFreeKeys (idsOf (if r.success = true then markAllReadUpdate init else init)) = true
          split
          · rw [idsOf_markAllReadUpdate]; exact h0
          · exact h0

/-- Witness for the amended C2 theorem on a concrete well-behaved trace. -/
theorem reconciled_ids_dupfree_witness :
    dupFreeKeys (idsOf (applyNotifOps
      [.snapshot (.list [n1]), .push n2, .markRead "n1" (some true),
       .markAllRead (some ⟨true, 2⟩)] [])) = true :=
  reconciled_ids_dupfree_of_safe _ _ (by decide) (by decide)

-- ---------------- C5 ----------------

/-- C5: after `handleLogout`, the task collection, the notification
collection and the per-task log cache are all empty and the push channel
is disconnected, regardless of prior state. -/
theorem logout_full_reset (now : Nat) (s : AppState) :
    (handleLogout now s).tasks = [] ∧
    (handleLogout now s).notifications = [] ∧
    (handleLogout now s).logsByTask = [] ∧
    (handleLogout now s).socketConnected = false ∧
    ∀ k, recordLookup (handleLogout now s).logsByTask k = none := by
  exact ⟨rfl, rfl, rfl, rfl, fun k => rfl⟩

-- ---------------- C6 ----------------

/-- C6: a failed snapshot fetch of tasks or of notifications leaves the
corresponding in-memory collection exactly as it was. -/
theorem fetch_failure_preserves_collections (now : Nat) (s : AppState) :
    (fetchTasksComplete now none s).tasks = s.tasks ∧
    (fetchNotificationsComplete none s).notifications = s.notifications := by
  constructor
  · unfold fetchTasksComplete
    split <;> rfl
  · unfold fetchNotificationsComplete
    split <;> rfl

-- ---------------- C7 ----------------

/-- C7: after every sequence of reconciler operations, `unreadCount`
computed from the collection equals the number of entries whose `isRead`
is `false`; it is a pure function of the collection. -/
theorem unread_count_invariant (ops : List NotifOp) (init : List INotification) :
    unreadCount (applyNotifOps ops init)
      = ((applyNotifOps ops init).filter (fun n => n.isRead = false)).length := by
  unfold unreadCount
  congr 1
  apply List.filter_congr
  intro n _
  cases hn : n.isRead <;> simp [hn]

-- ---------------- C3 ----------------

/-- C3 counterexample: fetches for filter A and then filter B are issued
in order, the response of B arrives first and the response of A arrives
second; the final visible task collection is the response of A, not the
response of B — there is no request sequence number to discard the stale
response. -/
theorem last_fetch_wins_fails :
    (fetchTasksComplete 1 (some (.list [tA]))
      (fetchTasksComplete 0 (some (.list [tB])) loggedInState)).tasks = [tA]
    ∧ ([tA] : List ITask) ≠ [tB] := by
  decide

/-- C3 (amended): `fetchTasks` attaches no sequence number; each arriving
response simply replaces the task collection, so the final visible
collection reflects whichever response arrived last, regardless of issue
order. -/
theorem responses_apply_in_arrival_order (now1 now2 : Nat) (s : AppState)
    (h : s.currentUser.isSome = true) (dB dA : ApiData ITask) :
    (fetchTasksComplete now2 (some dA) (fetchTasksComplete now1 (some dB) s)).tasks
      = extractList dA := by
  obtain ⟨u, hu⟩ := Option.isSome_iff_exists.mp h
  simp [fetchTasksComplete, hu]

/-- Witness for the amended C3 theorem at a concrete logged-in state. -/
theorem responses_arrival_order_witness :
    (fetchTasksComplete 1 (some (.list [tB]))
      (fetchTasksComplete 0 (some (.list [tA])) loggedInState)).tasks
      = extractList (.list [tB]) :=
  responses_apply_in_arrival_order 0 1 loggedInState (by decide) (.list [tA]) (.list [tB])

-- ---------------- C4 ----------------

/-- C4 counterexample: with one unread notification `n1` in the
collection, a `markRead("n1")` whose confirm call fails leaves `n1`
unread — so no optimistic flip happened before the call resolved (had it
happened without rollback, the final collection would hold the flipped
entry). -/
theorem markRead_not_optimistic :
    (markNotificationRead "n1" none notifState).notifications = [n1]
    ∧ ([n1] : List INotification) ≠ [{ n1 with isRead := true }] := by
  decide

/-- C4 (amended): `markRead(id)` flips `isRead` locally only when the
confirm call resolves with success; on any failed or unsuccessful
confirm call the local collection is left unchanged — there is no
optimistic flip, hence nothing to roll back. -/
theorem markRead_flips_only_on_success (notificationId : String) (s : AppState)
    (outcome : Option Bool) (h : s.currentUser.isSome = true) :
    (markNotificationRead notificationId (some true) s).notifications
        = markReadUpdate notificationId s.notifications
    ∧ (outcome ≠ some true →
        (markNotificationRead notificationId outcome s).notifications
          = s.notifications) := by
  obtain ⟨u, hu⟩ := Option.isSome_iff_exists.mp h
  constructor
  · simp [markNotificationRead, hu]
  · intro hne
    cases outcome with
    | none => simp [markNotificationRead, hu]
    | some b =>
      cases b with
      | false => simp [markNotificationRead, hu]
      | true => exact absurd rfl hne

/-- Witness for the amended C4 theorem at a concrete state. -/
theorem markRead_flips_witness :
    (markNotificationRead "n1" (some true) notifState).notifications
      = markReadUpdate "n1" notifState.notifications
    ∧ (markNotificationRead "n1" none notifState).notifications
      = notifState.notifications :=
  ⟨(markRead_flips_only_on_success "n1" notifState none (by decide)).1,
   (markRead_flips_only_on_success "n1" notifState none (by decide)).2 (by decide)⟩

-- ---------------- C8 ----------------

/-- C8 counterexample: with one unread notification present, a
`markAllRead` whose batch confirm call fails issues the one call but
does not flip the unread entry — the claim that it flips all unread
entries (unconditionally) is false. -/
theorem markAllRead_flip_can_fail :
    (markAllReadLocal 0 none notifState).1 = 1
    ∧ (markAllReadLocal 0 none notifState).2.notifications = [n1]
    ∧ n1.isRead = false := by
  decide

/-- C8 (amended): `markAllRead` with no unread entries issues no network
call and leaves the collection unchanged; with unread entries present it
issues exactly one batch confirm call and flips all unread entries to
read exactly when the call resolves with success: on a failed call
(request thrown, or response without success) the collection is
unchanged.  The last conjunct states the failure direction: whenever the
outcome is not a successful response — `none` or `success = false` —
the notification collection stays exactly as it was. -/
theorem markAllRead_contract (now : Nat) (outcome : Option MarkAllResp) (s : AppState)
    (h : s.currentUser.isSome = true) :
    ((s.notifications.filter (fun n => !n.isRead)).length = 0 →
        (markAllReadLocal now outcome s).1 = 0
        ∧ (markAllReadLocal now outcome s).2.notifications = s.notifications)
    ∧ ((s.notifications.filter (fun n => !n.isRead)).length ≠ 0 →
        (markAllReadLocal now outcome s).1 = 1)
    ∧ ((s.notifications.filter (fun n => !n.isRead)).length ≠ 0 →
        ∀ r, outcome = some r → r.success = true →
          (markAllReadLocal now outcome s).2.notifications
            = markAllReadUpdate s.notifications)
    ∧ ((∀ r, outcome = some r → r.success = false) →
        (markAllReadLocal now outcome s).2.notifications = s.notifications) := by
  obtain ⟨u, hu⟩ := Option.isSome_iff_exists.mp h
  refine ⟨?_, ?_, ?_, ?_⟩
  · intro hz
    simp [markAllReadLocal, hu, hz]
  · intro hnz
    cases outcome with
    | none => simp [markAllReadLocal, hu, hnz]
    | some r =>
      by_cases hrs : r.success = true
      · simp [markAllReadLocal, hu, hnz, hrs]
      · simp [markAllReadLocal, hu, hnz, hrs]
  · intro hnz r hr hrs
    subst hr
    simp [markAllReadLocal, hu, hnz, hrs]
  · intro hfail
    by_cases hz : (s.notifications.filter (fun n => !n.isRead)).length = 0
    · simp [markAllReadLocal, hu, hz]
    · cases outcome with
      | none => simp [markAllReadLocal, hu, hz]
      | some r =>
        have hrs : r.success = false := hfail r rfl
        simp [markAllReadLocal, hu, hz, hrs]

/-- Witness for the amended C8 theorem at a concrete state with one
unread notification: a successful batch confirm issues one call and
flips the entry; a thrown batch confirm leaves the collection
unchanged. -/
theorem markAllRead_contract_witness :
    (markAllReadLocal 0 (some ⟨true, 1⟩) notifState).1 = 1
    ∧ (markAllReadLocal 0 (some ⟨true, 1⟩) notifState).2.notifications
      = markAllReadUpdate notifState.notifications
    ∧ (markAllReadLocal 0 none notifState).2.notifications
      = notifState.notifications
    ∧ (markAllReadLocal 0 (some ⟨false, 0⟩) notifState).2.notifications
      = notifState.notifications :=
  ⟨(markAllRead_contract 0 (some ⟨true, 1⟩) notifState (by decide)).2.1 (by decide),
   (markAllRead_contract 0 (some ⟨true, 1⟩) notifState (by decide)).2.2.1 (by decide)
     ⟨true, 1⟩ rfl rfl,
   (markAllRead_contract 0 none notifState (by decide)).2.2.2 (by simp),
   (markAllRead_contract 0 (some ⟨false, 0⟩) notifState (by decide)).2.2.2
     (by intro r hr; cases hr; rfl)⟩

-- ---------------- C9 helpers ----------------

/-- Dismissing an id that occurs nowhere in the queue changes nothing. -/
theorem removeToast_of_not_keyMem (k : String) (l : List ToastItem)
    (h : keyMem k (l.map ToastItem.id) = false) : removeToast k l = l := by
  induction l with
  | nil => rfl
  | cons a rest ih =>
    simp only [List.map_cons, keyMem] at h
    by_cases ha : a.id = k
    · rw [if_pos ha] at h
      exact absurd h (by simp)
    · rw [if_neg ha] at h
      have ih' := ih h
      simp only [removeToast] at ih' ⊢
      rw [List.filter_cons, if_pos (by simpa using ha), ih']

/-- With duplicate-free ids, dismissing a member toast removes exactly
one entry. -/
theorem removeToast_length (t : ToastItem) (l : List ToastItem)
    (h1 : dupFreeKeys (l.map ToastItem.id) = true) (h2 : t ∈ l) :
    (removeToast t.id l).length + 1 = l.length := by
  induction l with
  | nil => cases h2
  | cons a rest ih =>
    simp only [List.map_cons, dupFreeKeys, Bool.and_eq_true, Bool.not_eq_true'] at h1
    obtain ⟨hnk, hdf⟩ := h1
    by_cases hat : a.id = t.id
    · have hsub : keyMem t.id (rest.map ToastItem.id) = false := hat ▸ hnk
      have hdrop : removeToast t.id (a :: rest) = removeToast t.id rest := by
        simp [removeToast, List.filter_cons, hat]
      rw [hdrop, removeToast_of_not_keyMem t.id rest hsub]
      simp
    · have ht : t ∈ rest := by
        cases h2 with
        | head => exact absurd rfl hat
        | tail _ h => exact h
      have hkeep : removeToast t.id (a :: rest) = a :: removeToast t.id rest := by
        simp [removeToast, List.filter_cons, hat]
      rw [hkeep]
      simp only [List.length_cons]
      have := ih hdf ht
      omega

-- ---------------- C9 ----------------

/-- C9 counterexample: two identical messages pushed during the same
millisecond receive the same id (`Date.now().toString()`), and dismissing
by that id empties the whole queue instead of removing only one toast. -/
theorem toast_same_ms_shares_id :
    ((showToast 5 "saved" (showToast 5 "saved" [])).map ToastItem.id) = ["5", "5"]
    ∧ (showToast 5 "saved" (showToast 5 "saved" [])).length = 2
    ∧ removeToast "5" (showToast 5 "saved" (showToast 5 "saved" [])) = [] := by
  decide

/-- C9 (amended): toast ids are the push-time timestamps, so they are
unique only when no two pushes share a millisecond; whenever the queue
ids are duplicate-free, dismissing a toast by its id removes exactly
that toast and every toast with a different id survives. -/
theorem toast_dismiss_exactly_one (toasts : List ToastItem) (t : ToastItem)
    (h1 : dupFreeKeys (toasts.map ToastItem.id) = true) (h2 : t ∈ toasts) :
    t ∉ removeToast t.id toasts
    ∧ (removeToast t.id toasts).length + 1 = toasts.length
    ∧ ∀ x ∈ toasts, x.id ≠ t.id → x ∈ removeToast t.id toasts := by
  refine ⟨?_, removeToast_length t toasts h1 h2, ?_⟩
  · intro hmem
    rw [removeToast] at hmem
    have := List.of_mem_filter hmem
    simp at this
  · intro x hx hne
    rw [removeToast]
    exact List.mem_filter_of_mem hx (by simpa using hne)

/-- Witness for the amended C9 theorem on a queue of two toasts pushed
at distinct timestamps. -/
theorem toast_dismiss_witness :
    (⟨"1", "saved"⟩ : ToastItem) ∉
        removeToast "1" [⟨"1", "saved"⟩, ⟨"2", "saved"⟩]
    ∧ (removeToast "1" [(⟨"1", "saved"⟩ : ToastItem), ⟨"2", "saved"⟩]).length + 1
      = [(⟨"1", "saved"⟩ : ToastItem), ⟨"2", "saved"⟩].length
    ∧ ∀ x ∈ [(⟨"1", "saved"⟩ : ToastItem), ⟨"2", "saved"⟩],
        x.id ≠ "1" → x ∈ removeToast "1" [⟨"1", "saved"⟩, ⟨"2", "saved"⟩] :=
  toast_dismiss_exactly_one [⟨"1", "saved"⟩, ⟨"2", "saved"⟩] ⟨"1", "saved"⟩
    (by decide) (by decide)

-- ---------------- C10 helpers ----------------

/-- Deleting a key from the log cache removes it. -/
theorem recordLookup_recordDelete_self (r : List (String × List ILog)) (k : String) :
    recordLookup (recordDelete r k) k = none := by
  induction r with
  | nil => rfl
  | cons p rest ih =>
    by_cases hp : p.1 = k
    · have : recordDelete (p :: rest) k = recordDelete rest k := by
        simp [recordDelete, List.filter_cons, hp]
      rw [this]
      exact ih
    · have hd : recordDelete (p :: rest) k = p :: recordDelete rest k := by
        simp [recordDelete, List.filter_cons, hp]
      rw [hd]
      have hstep : recordLookup (p :: recordDelete rest k) k
          = recordLookup (recordDelete rest k) k := by
        simp only [recordLookup]
        rw [List.find?_cons_of_neg _ (by simpa using hp)]
      rw [hstep]
      exact ih

/-- Deleting a key from the log cache leaves every other key unchanged. -/
theorem recordLookup_recordDelete_other (r : List (String × List ILog)) (k k' : String)
    (h : k' ≠ k) : recordLookup (recordDelete r k) k' = recordLookup r k' := by
  induction r with
  | nil => rfl
  | cons p rest ih =>
    by_cases hp : p.1 = k
    · have hd : recordDelete (p :: rest) k = recordDelete rest k := by
        simp [recordDelete, List.filter_cons, hp]
      have hp' : p.1 ≠ k' := by
        rw [hp]
        exact fun hkk => h hkk.symm
      have hr : recordLookup (p :: rest) k' = recordLookup rest k' := by
        simp [recordLookup, List.find?, hp']
      rw [hd, hr]
      exact ih
    · have hd : recordDelete (p :: rest) k = p :: recordDelete rest k := by
        simp [recordDelete, List.filter_cons, hp]
      rw [hd]
      by_cases hp' : p.1 = k'
      · simp [recordLookup, List.find?, hp']
      · have h1 : recordLookup (p :: recordDelete rest k) k'
            = recordLookup (recordDelete rest k) k' := by
          simp [recordLookup, List.find?, hp']
        have h2 : recordLookup (p :: rest) k' = recordLookup rest k' := by
          simp [recordLookup, List.find?, hp']
        rw [h1, h2]
        exact ih

-- ---------------- C10 ----------------

/-- C10: a confirmed, successful delete of a task removes exactly the
task entries bearing its id from the task collection and exactly its key
from the per-task log cache; every task with a different id stays (in
order) and every cached log list under a different key is unchanged. -/
theorem delete_task_frame (now : Nat) (task : ITask) (s : AppState) :
    (deleteTask now task true true s).tasks
        = s.tasks.filter (fun x => getTaskId x ≠ getTaskId task)
    ∧ (∀ x ∈ (deleteTask now task true true s).tasks, getTaskId x ≠ getTaskId task)
    ∧ (∀ x ∈ s.tasks, getTaskId x ≠ getTaskId task →
        x ∈ (deleteTask now task true true s).tasks)
    ∧ recordLookup (deleteTask now task true true s).logsByTask (getTaskId task) = none
    ∧ ∀ k, k ≠ getTaskId task →
        recordLookup (deleteTask now task true true s).logsByTask k
          = recordLookup s.logsByTask k := by
  have h1 : (deleteTask now task true true s).tasks
      = s.tasks.filter (fun x => getTaskId x ≠ getTaskId task) := rfl
  have h2 : (deleteTask now task true true s).logsByTask
      = recordDelete s.logsByTask (getTaskId task) := rfl
  refine ⟨h1, ?_, ?_, ?_, ?_⟩
  · intro x hx
    rw [h1] at hx
    have := List.of_mem_filter hx
    simpa using this
  · intro x hx hne
    rw [h1]
    exact List.mem_filter_of_mem hx (by simpa using hne)
  · rw [h2]
    exact recordLookup_recordDelete_self s.logsByTask (getTaskId task)
  · intro k hk
    rw [h2]
    exact recordLookup_recordDelete_other s.logsByTask (getTaskId task) k hk

/-- Witness for the C10 theorem: deleting task `t1` from a state with
tasks `t1`, `t3` and cached logs for both keeps task `t3` and its logs. -/
theorem delete_task_frame_witness :
    tOther ∈ (deleteTask 0 tA true true delState).tasks
    ∧ recordLookup (deleteTask 0 tA true true delState).logsByTask "t3"
      = recordLookup delState.logsByTask "t3" :=
  ⟨(delete_task_frame 0 tA delState).2.2.1 tOther (by decide) (by decide),
   (delete_task_frame 0 tA delState).2.2.2.2 "t3" (by decide)⟩
